import Mathlib

/-!
Verification of the apik CONNECT tunnel proxy (`internal/proxy`).

Shallow embedding of the proxy component of the `apik` repository:

* `stringsSplit`, `stringsContains` — Go `strings.Split` / `strings.Contains`
  restricted to the single-character (resp. literal substring) uses in the code;
* `readRequestLine`, `ProxyConnectHandle` — the raw-socket variant
  (`internal/proxy/helpers.go`);
* `ProxyConnectHandler` (`internal/proxy/proxy.go`) and
  `HttpProxyConnectHandler` (`internal/proxy/handler.go`) — the hijacking
  handler variants, embedded as event-trace producers;
* `copyIO` / `copyIOCancel` — the per-direction relay copy bodies;
* a small-step interleaving model of one tunnel session
  (`SessionStep` / `SessionReachable`) for the waitgroup-based relay.

Go panics (index out of range, nil pointer dereference) are made explicit via
the `Outcome` type; machine I/O nondeterminism (what `io.Copy` returns) is an
explicit parameter or a nondeterministic transition.
-/

/-- A Go runtime panic relevant to this code. -/
inductive GoPanic where
  | indexOutOfRange
  | nilPointerDeref
  deriving DecidableEq, Repr

/-- Result of running a piece of Go code that may panic. -/
inductive Outcome (α : Type) where
  | ok (a : α)
  | panic (p : GoPanic)
  deriving DecidableEq, Repr

/-- Go `strings.Split(s, sep)` for a single-character separator, on the
character list of `s`.  `strings.Split` with a non-empty separator returns the
(possibly empty) substrings between consecutive occurrences of the separator;
on the empty string it returns one empty field. -/
def goSplitChars (sep : Char) : List Char → List (List Char)
  | [] => [[]]
  | c :: rest =>
    if c = sep then [] :: goSplitChars sep rest
    else
      match goSplitChars sep rest with
      | [] => [[c]]
      | t :: ts => (c :: t) :: ts

/-- Go `strings.Split(s, " ")` as used by `readRequestLine`
(`internal/proxy/helpers.go`): split on every single space. -/
def stringsSplit (s : String) : List String :=
  (goSplitChars ' ' s.toList).map (fun cs => String.mk cs)

/-- Boolean: `pre` is a prefix of `l` (over characters). -/
def charsPrefixOf : List Char → List Char → Bool
  | [], _ => true
  | _ :: _, [] => false
  | a :: as, b :: bs => a = b && charsPrefixOf as bs

/-- Boolean: `sub` occurs contiguously inside `l`. -/
def charsInfixOf (sub : List Char) : List Char → Bool
  | [] => sub.isEmpty
  | c :: rest => charsPrefixOf sub (c :: rest) || charsInfixOf sub rest

/-- Go `strings.Contains(s, substr)`: `substr` occurs as a substring of `s`. -/
def stringsContains (s substr : String) : Bool :=
  charsInfixOf substr.toList s.toList

/-- Go `http.StatusText` restricted to the status codes this component emits. -/
def statusText (code : Nat) : String :=
  if code = 200 then "OK"
  else if code = 405 then "Method Not Allowed"
  else if code = 500 then "Internal Server Error"
  else if code = 503 then "Service Unavailable"
  else ""

/-- The parsed request line of the raw-socket variant
(`requestLine` in `internal/proxy/helpers.go`). -/
structure RequestLine where
  method : String
  authority : String
  proto : String
  deriving DecidableEq, Repr

/-- Abstraction of a `bufio.Scanner` over the client connection: the lines
`Scan` will yield, and the value `Err()` reports once the lines are exhausted
(`none` = clean EOF, `some e` = the underlying stream errored).  While tokens
remain, `Err()` reports `none`, matching a stream that delivers its data
before the error is encountered. -/
structure Scanner where
  lines : List String
  termErr : Option String
  deriving DecidableEq, Repr

/-- Function `readRequestLine` (`internal/proxy/helpers.go`): scan one line, split it on
single spaces, build a `requestLine` from tokens 0, 1 and 2, and `break`; then
return `scanner.Err()`.  The Go indexing `parts[0]`, `parts[1]`, `parts[2]`
panics when the index is out of range, which the embedding makes explicit via
`List.get?`; the result also carries the scanner state after the call (one
line consumed when one was available). -/
def readRequestLine (sc : Scanner) :
    Outcome (Option RequestLine × Option String × Scanner) :=
  match sc.lines with
  | [] =>
    -- the loop body never runs; `rLine` stays nil and `err = scanner.Err()`
    Outcome.ok (none, sc.termErr, sc)
  | line :: rest =>
    let parts := stringsSplit line
    match parts.get? 0, parts.get? 1, parts.get? 2 with
    | some m, some a, some p =>
      Outcome.ok (some ⟨m, a, p⟩, none, ⟨rest, sc.termErr⟩)
    | _, _, _ => Outcome.panic GoPanic.indexOutOfRange

/-- The two connections of a tunnel session. -/
inductive ConnId where
  | client
  | target
  deriving DecidableEq, Repr

/-- Observable actions a handler performs, in program order.  `httpError` is
`http.Error(w, body, status)` (the framework response path); `connWrite` is a
direct write of raw bytes to a connection; `goCopy dst src` is the spawn of a
`copyIO` goroutine; `waitReturn` is the return of the session-level wait
(`wg.Wait()`). -/
inductive Event where
  | httpError (status : Nat) (body : String)
  | hijack
  | dial (network : String) (authority : String)
  | connWrite (c : ConnId) (bytes : String)
  | connClose (c : ConnId)
  | goCopy (dst : ConnId) (src : ConnId)
  | waitReturn
  deriving DecidableEq, Repr

/-- Bytes written by `writeStatusLine` of `internal/proxy/proxy.go`:
`fmt.Fprintf(conn, "HTTP/%d.%d %d %s\r\n\r\n", r.ProtoMajor, r.ProtoMinor,
statusCode, http.StatusText(statusCode))`.  A write failure is only logged in
the Go code and does not alter control flow, so the embedding records the
bytes handed to the connection. -/
def statusLineFmtBytes (protoMajor protoMinor statusCode : Nat) : String :=
  "HTTP/" ++ toString protoMajor ++ "." ++ toString protoMinor ++ " "
    ++ toString statusCode ++ " " ++ statusText statusCode ++ "\r\n\r\n"

/-- The write performed by the `writeStatusLine` of `internal/proxy/proxy.go`. -/
def writeStatusLineFmt (protoMajor protoMinor statusCode : Nat) : Event :=
  Event.connWrite ConnId.client (statusLineFmtBytes protoMajor protoMinor statusCode)

/-- Bytes written by `writeStatusLine` of `internal/proxy/helpers.go`:
`fmt.Fprintf(conn, "%s %d %s\r\n\r\n", proto, statusCode,
http.StatusText(statusCode))`. -/
def statusLineProtoBytes (proto : String) (statusCode : Nat) : String :=
  proto ++ " " ++ toString statusCode ++ " " ++ statusText statusCode ++ "\r\n\r\n"

/-- The write performed by the `writeStatusLine` of `internal/proxy/helpers.go`. -/
def writeStatusLineProto (proto : String) (statusCode : Nat) : Event :=
  Event.connWrite ConnId.client (statusLineProtoBytes proto statusCode)

/-- The fields of the framework-parsed `*http.Request` that the handler
variants read. -/
structure HttpRequest where
  method : String
  host : String
  protoMajor : Nat
  protoMinor : Nat
  proto : String
  remoteAddr : String
  deriving DecidableEq, Repr

/-- Handler `ProxyConnectHandler` (`internal/proxy/proxy.go`) as the trace of events it
performs, given the outcome of `w.(http.Hijacker).Hijack()` and of
`net.Dial("tcp", r.URL.Host)` (`none` = success, `some e` = error).  Deferred
closes run in LIFO order on return, so on the success path the target
connection (deferred second) closes before the client connection (deferred
first). -/
def ProxyConnectHandler (r : HttpRequest)
    (hijackErr dialErr : Option String) : List Event :=
  if r.method ≠ "CONNECT" then
    [Event.httpError 405 (statusText 405)]
  else
    match hijackErr with
    | some e => [Event.httpError 500 e]
    | none =>
      Event.hijack ::
      Event.dial "tcp" r.host ::
      match dialErr with
      | some _ =>
        [writeStatusLineFmt r.protoMajor r.protoMinor 503,
         Event.connClose ConnId.client]
      | none =>
        [writeStatusLineFmt r.protoMajor r.protoMinor 200,
         Event.goCopy ConnId.target ConnId.client,
         Event.goCopy ConnId.client ConnId.target,
         Event.waitReturn,
         Event.connClose ConnId.target,
         Event.connClose ConnId.client]

/-- Handler `HttpProxyConnectHandler` (`internal/proxy/handler.go`): identical control
flow to `ProxyConnectHandler`, but its status lines go through the
`writeStatusLine(conn, code, r.Proto)` of `internal/proxy/helpers.go`. -/
def HttpProxyConnectHandler (r : HttpRequest)
    (hijackErr dialErr : Option String) : List Event :=
  if r.method ≠ "CONNECT" then
    [Event.httpError 405 (statusText 405)]
  else
    match hijackErr with
    | some e => [Event.httpError 500 e]
    | none =>
      Event.hijack ::
      Event.dial "tcp" r.host ::
      match dialErr with
      | some _ =>
        [writeStatusLineProto r.proto 503,
         Event.connClose ConnId.client]
      | none =>
        [writeStatusLineProto r.proto 200,
         Event.goCopy ConnId.target ConnId.client,
         Event.goCopy ConnId.client ConnId.target,
         Event.waitReturn,
         Event.connClose ConnId.target,
         Event.connClose ConnId.client]

/-- Handler `ProxyConnectHandle` (`internal/proxy/helpers.go`), the raw-socket
variant.  After `readRequestLine`, the error branch evaluates `r.proto` and
the method check evaluates `r.method`; when `r` is nil either dereference is a
Go nil-pointer panic, made explicit here.  On the tunnel path only
`targetConn.Close()` is deferred — the client connection has no deferred
close in this function. -/
def ProxyConnectHandle (sc : Scanner) (dialErr : Option String) :
    Outcome (List Event) :=
  match readRequestLine sc with
  | Outcome.panic p => Outcome.panic p
  | Outcome.ok (rOpt, some _, _) =>
    match rOpt with
    | none => Outcome.panic GoPanic.nilPointerDeref
    | some r =>
      Outcome.ok [writeStatusLineProto r.proto 500,
                  Event.connClose ConnId.client]
  | Outcome.ok (rOpt, none, _) =>
    match rOpt with
    | none => Outcome.panic GoPanic.nilPointerDeref
    | some r =>
      if r.method ≠ "CONNECT" then
        Outcome.ok [writeStatusLineProto r.proto 405,
                    Event.connClose ConnId.client]
      else
        Outcome.ok
          (Event.dial "tcp" r.authority ::
            match dialErr with
            | some _ =>
              [writeStatusLineProto r.proto 500,
               Event.connClose ConnId.client]
            | none =>
              [writeStatusLineProto r.proto 200,
               Event.goCopy ConnId.target ConnId.client,
               Event.goCopy ConnId.client ConnId.target,
               Event.waitReturn,
               Event.connClose ConnId.target])

/-- The status-line bytes written to the client connection, in order. -/
def statusLinesWritten (tr : List Event) : List String :=
  tr.filterMap (fun e =>
    match e with
    | Event.connWrite ConnId.client bytes => some bytes
    | _ => none)

/-- Number of dial attempts in a trace. -/
def countDials (tr : List Event) : Nat :=
  (tr.filter (fun e =>
    match e with
    | Event.dial _ _ => true
    | _ => false)).length

/-- Whether a trace spawns any relay copy goroutine. -/
def startsRelay (tr : List Event) : Bool :=
  tr.any (fun e =>
    match e with
    | Event.goCopy _ _ => true
    | _ => false)

/-- Whether a trace closes the given connection. -/
def closesConn (tr : List Event) (c : ConnId) : Bool :=
  tr.any (fun e =>
    match e with
    | Event.connClose c' => c' = c
    | _ => false)

/-- The prefix of a trace before the first relay copy goroutine is spawned:
everything here happens before any tunneled byte can be forwarded. -/
def beforeRelay (tr : List Event) : List Event :=
  tr.takeWhile (fun e =>
    match e with
    | Event.goCopy _ _ => false
    | _ => true)

/-- Result of one `io.Copy(dst, src)` call: `eof` when the copy ended with a
nil error (source reached EOF), `copyErr msg` when it returned an error whose
`Error()` string is `msg`. -/
inductive CopyResult where
  | eof
  | copyErr (msg : String)
  deriving DecidableEq, Repr

/-- A structured log record emitted through the zerolog logger. -/
structure LogEntry where
  level : String
  fields : List (String × String)
  msg : String
  deriving DecidableEq, Repr

/-- Visible effects of one run of the waitgroup-based `copyIO`. -/
structure CopyIOEffect where
  logged : Option LogEntry
  dstClosed : Bool
  wgDone : Bool
  deriving DecidableEq, Repr

/-- Function `copyIO(wg, dst, src)` (`internal/proxy/helpers.go` and
`internal/proxy/proxy.go`, identical bodies): `wg.Done()` is deferred, so it
always runs; a copy error is logged via `log.Error().Err(err).Msg("")` unless
its message contains `"use of closed network connection"`, and the function
returns without closing anything; only a nil-error completion (source EOF)
closes the destination connection. -/
def copyIO : CopyResult → CopyIOEffect
  | CopyResult.copyErr msg =>
    { logged :=
        if stringsContains msg "use of closed network connection" then none
        else some { level := "error", fields := [("error", msg)], msg := "" },
      dstClosed := false,
      wgDone := true }
  | CopyResult.eof =>
    { logged := none, dstClosed := true, wgDone := true }

/-- Visible effects of one run of the cancellation-based `copyIO`. -/
structure CopyIOCancelEffect where
  logged : Option LogEntry
  cancelCalled : Bool
  deriving DecidableEq, Repr

/-- Function `copyIO(cancel, dest, src)` of the context-cancellation handler variant:
an unexpected copy error is logged with the destination's local address
(`log.Error().Str("local_addr", dest.LocalAddr().String()).Err(err)`), and
`cancel()` is called only on a nil-error completion — an errored direction
returns without cancelling. -/
def copyIOCancel (destLocalAddr : String) : CopyResult → CopyIOCancelEffect
  | CopyResult.copyErr msg =>
    { logged :=
        if stringsContains msg "use of closed network connection" then none
        else some { level := "error",
                    fields := [("local_addr", destLocalAddr), ("error", msg)],
                    msg := "" },
      cancelCalled := false }
  | CopyResult.eof =>
    { logged := none, cancelCalled := true }

/-!
Interleaving model of one waitgroup-based tunnel session.

After a successful dial, every variant runs
`wg.Add(2); go copyIO(wg, targetConn, clientConn); go copyIO(wg, clientConn,
targetConn); wg.Wait()` and then its deferred closes.  Direction `a` is
client→target (destination `target`), direction `b` is target→client
(destination `client`).  A direction may finish with source EOF (only
observable while its source connection is not locally closed), after which
`copyIO` closes its destination, or finish with a copy error (always
possible: peer resets, write failures, or a read from a locally closed
connection), after which `copyIO` closes nothing; either way the deferred
`wg.Done()` runs.  `wg.Wait()` returns exactly when the counter reaches zero,
and the handler then runs its deferred closes: every variant defers
`targetConn.Close()`; only the hijacking handler variants also defer
`clientConn.Close()` (`deferCloseClient`), while `ProxyConnectHandle` does
not.  Go's `net.Conn.Close` on an already-closed connection returns an error
and never panics, so closing is modelled as an idempotent flag. -/

/-- State of one tunnel session: connection closed flags, completion of the
two copy goroutines, the waitgroup counter, whether the handler's
`wg.Wait()` has returned (and its deferred closes have run), and how many
times it returned. -/
structure SessionState where
  clientClosed : Bool
  targetClosed : Bool
  aDone : Bool
  bDone : Bool
  wgCount : Nat
  returned : Bool
  waitRet : Nat
  deriving DecidableEq, Repr

/-- Session state right after `wg.Add(2)` and the two `go` statements. -/
def initSession : SessionState :=
  { clientClosed := false, targetClosed := false, aDone := false,
    bDone := false, wgCount := 2, returned := false, waitRet := 0 }

/-- One interleaving step of the session, parameterised by whether the
handler deferred `clientConn.Close()`. -/
inductive SessionStep (deferCloseClient : Bool) :
    SessionState → SessionState → Prop where
  | aEof (s : SessionState) (h : s.aDone = false) (hsrc : s.clientClosed = false) :
      SessionStep deferCloseClient s
        { s with targetClosed := true, aDone := true, wgCount := s.wgCount - 1 }
  | aErr (s : SessionState) (h : s.aDone = false) :
      SessionStep deferCloseClient s
        { s with aDone := true, wgCount := s.wgCount - 1 }
  | bEof (s : SessionState) (h : s.bDone = false) (hsrc : s.targetClosed = false) :
      SessionStep deferCloseClient s
        { s with clientClosed := true, bDone := true, wgCount := s.wgCount - 1 }
  | bErr (s : SessionState) (h : s.bDone = false) :
      SessionStep deferCloseClient s
        { s with bDone := true, wgCount := s.wgCount - 1 }
  | waitReturn (s : SessionState) (h : s.wgCount = 0) (hr : s.returned = false) :
      SessionStep deferCloseClient s
        { s with returned := true, waitRet := s.waitRet + 1,
                 targetClosed := true,
                 clientClosed := s.clientClosed || deferCloseClient }

/-- States reachable from the start of the relay. -/
inductive SessionReachable (deferCloseClient : Bool) : SessionState → Prop where
  | init : SessionReachable deferCloseClient initSession
  | step {s t : SessionState} :
      SessionReachable deferCloseClient s →
      SessionStep deferCloseClient s t →
      SessionReachable deferCloseClient t

/-- Inductive invariant of the session: the waitgroup counter counts the
copy goroutines still running, the wait has returned at most once, and a
returned wait implies both goroutines finished and the deferred closes ran. -/
def sessionInv (deferCloseClient : Bool) (s : SessionState) : Prop :=
  s.wgCount + (if s.aDone then 1 else 0) + (if s.bDone then 1 else 0) = 2
  ∧ s.waitRet = (if s.returned then 1 else 0)
  ∧ (s.returned = true →
      s.targetClosed = true ∧ s.aDone = true ∧ s.bDone = true
      ∧ (deferCloseClient = true → s.clientClosed = true))

theorem sessionInv_step {d : Bool} {s t : SessionState}
    (hs : SessionStep d s t) (ih : sessionInv d s) : sessionInv d t := by
  obtain ⟨hwg, hret, himpl⟩ := ih
  cases hs with
  | aEof ha hsrc =>
    refine ⟨?_, hret, ?_⟩
    · simp only [ha, Bool.false_eq_true, if_false] at hwg
      cases hb : s.bDone <;> simp [hb] at hwg ⊢ <;> omega
    · intro hr
      exact absurd ((himpl hr).2.1) (by simp [ha])
  | aErr ha =>
    refine ⟨?_, hret, ?_⟩
    · simp only [ha, Bool.false_eq_true, if_false] at hwg
      cases hb : s.bDone <;> simp [hb] at hwg ⊢ <;> omega
    · intro hr
      exact absurd ((himpl hr).2.1) (by simp [ha])
  | bEof hb hsrc =>
    refine ⟨?_, hret, ?_⟩
    · simp only [hb, Bool.false_eq_true, if_false] at hwg
      cases ha : s.aDone <;> simp [ha] at hwg ⊢ <;> omega
    · intro hr
      exact absurd ((himpl hr).2.2) (by simp [hb])
  | bErr hb =>
    refine ⟨?_, hret, ?_⟩
    · simp only [hb, Bool.false_eq_true, if_false] at hwg
      cases ha : s.aDone <;> simp [ha] at hwg ⊢ <;> omega
    · intro hr
      exact absurd ((himpl hr).2.2) (by simp [hb])
  | waitReturn hw hr =>
    have hboth : s.aDone = true ∧ s.bDone = true := by
      cases ha : s.aDone <;> cases hb : s.bDone <;>
        simp [ha, hb, hw] at hwg ⊢
    refine ⟨?_, ?_, ?_⟩
    · simp [hboth.1, hboth.2, hw]
    · simp [hr] at hret
      simp [hret]
    · intro _
      refine ⟨rfl, hboth.1, hboth.2, ?_⟩
      intro hd
      simp [hd]

theorem sessionInv_of_reachable {d : Bool} {s : SessionState}
    (h : SessionReachable d s) : sessionInv d s := by
  induction h with
  | init => simp [sessionInv, initSession]
  | step _ hs ih => exact sessionInv_step hs ih

example : stringsSplit "CONNECT example.com:443 HTTP/1.1" =
    ["CONNECT", "example.com:443", "HTTP/1.1"] := by decide

example : stringsSplit "CONNECT" = ["CONNECT"] := by decide

example : stringsContains "read tcp: use of closed network connection" "use of closed network connection" = true := by decide

example : stringsContains "connection reset by peer" "use of closed network connection" = false := by decide

/-- C6: for every input stream whose first line contains fewer than 3
space-separated tokens, `readRequestLine` reaches the out-of-range branch of
the `parts[1]` / `parts[2]` indexing (a Go index-out-of-range panic, the
`none` branch of `List.get?` in this total embedding) instead of returning a
clean parse error. -/
theorem C6_short_request_line_faults (line : String) (rest : List String)
    (e : Option String) (h : (stringsSplit line).length < 3) :
    readRequestLine ⟨line :: rest, e⟩ = Outcome.panic GoPanic.indexOutOfRange := by
  unfold readRequestLine
  rcases hp : stringsSplit line with _ | ⟨a, _ | ⟨b, _ | ⟨c, tl⟩⟩⟩
  · simp [hp]
  · simp [hp]
  · simp [hp]
  · rw [hp] at h
    simp at h
    omega

/-- Witness for C6 at the one-token line `"CONNECT"`. -/
theorem C6_short_request_line_faults_witness :
    (stringsSplit "CONNECT").length < 3 ∧
      readRequestLine ⟨["CONNECT"], none⟩ = Outcome.panic GoPanic.indexOutOfRange :=
  ⟨by decide, C6_short_request_line_faults "CONNECT" [] none (by decide)⟩

/-- C7 counterexample: a stream that closes cleanly before any line is
available makes `readRequestLine` return success (`nil` error) with no parsed
request line — it does not fail with a non-nil read/scan error, because
`bufio.Scanner.Err()` reports `nil` at plain EOF. -/
theorem C7_clean_close_yields_no_error :
    readRequestLine ⟨[], none⟩ = Outcome.ok (none, none, ⟨[], none⟩) := rfl

/-- C7 (amended): if the underlying stream errors before a line is available,
`readRequestLine` returns that non-nil error (and no request line); but a
stream that closes cleanly before a line yields a nil request line and a nil
error. -/
theorem C7_stream_error_is_returned (e : String) :
    readRequestLine ⟨[], some e⟩ = Outcome.ok (none, some e, ⟨[], some e⟩) ∧
      readRequestLine ⟨[], none⟩ = Outcome.ok (none, none, ⟨[], none⟩) :=
  ⟨rfl, rfl⟩

/-- C8: on a well-formed first line of exactly 3 space-separated tokens,
`readRequestLine` consumes exactly that one line (the returned scanner holds
the remaining lines untouched), splits it on single spaces, and returns a
request line whose method, authority and proto are the first, second and
third token; no further line (header) is read. -/
theorem C8_wellformed_line_parsed (line m a p : String) (rest : List String)
    (e : Option String) (h : stringsSplit line = [m, a, p]) :
    readRequestLine ⟨line :: rest, e⟩ =
      Outcome.ok (some ⟨m, a, p⟩, none, ⟨rest, e⟩) := by
  unfold readRequestLine
  simp [h]

/-- Witness for C8 at `"CONNECT example.com:443 HTTP/1.1"` followed by a
header line that is left unconsumed. -/
theorem C8_wellformed_line_parsed_witness :
    stringsSplit "CONNECT example.com:443 HTTP/1.1" =
        ["CONNECT", "example.com:443", "HTTP/1.1"] ∧
      readRequestLine ⟨["CONNECT example.com:443 HTTP/1.1", "Host: example.com"], none⟩ =
        Outcome.ok (some ⟨"CONNECT", "example.com:443", "HTTP/1.1"⟩, none,
          ⟨["Host: example.com"], none⟩) :=
  ⟨by decide,
    C8_wellformed_line_parsed "CONNECT example.com:443 HTTP/1.1" "CONNECT"
      "example.com:443" "HTTP/1.1" ["Host: example.com"] none (by decide)⟩

/-- C10: whenever `readRequestLine` yields no parsed request line —
a non-nil scanner error with `rLine` nil, or a clean end of stream with both
`rLine` and the error nil — `ProxyConnectHandle` dereferences the nil
`r` (`r.proto` on the error path, `r.method` on the method check) and
faults with a nil-pointer panic instead of writing an error status. -/
theorem C10_nil_request_line_nil_deref :
    (∀ (e : String) (dialErr : Option String),
        ProxyConnectHandle ⟨[], some e⟩ dialErr =
          Outcome.panic GoPanic.nilPointerDeref) ∧
      ∀ (dialErr : Option String),
        ProxyConnectHandle ⟨[], none⟩ dialErr =
          Outcome.panic GoPanic.nilPointerDeref :=
  ⟨fun _ _ => rfl, fun _ => rfl⟩

/-- C3 counterexample: on a concrete GET request, the handler-based variants
answer 405 through the framework response path (`http.Error`) and return
without hijacking or closing any connection, so "closes the connection" fails
for them (only the raw-socket variant closes explicitly). -/
theorem C3_handler_variants_do_not_close :
    ProxyConnectHandler ⟨"GET", "example.com:80", 1, 1, "HTTP/1.1", "10.0.0.1:999"⟩
        none none = [Event.httpError 405 "Method Not Allowed"]
    ∧ closesConn (ProxyConnectHandler
        ⟨"GET", "example.com:80", 1, 1, "HTTP/1.1", "10.0.0.1:999"⟩ none none)
        ConnId.client = false
    ∧ closesConn (HttpProxyConnectHandler
        ⟨"GET", "example.com:80", 1, 1, "HTTP/1.1", "10.0.0.1:999"⟩ none none)
        ConnId.client = false := by
  refine ⟨?_, ?_, ?_⟩ <;> decide

/-- C3 (amended): for every non-CONNECT request, each variant responds with
405 Method Not Allowed, performs no dial and starts no relay; the raw-socket
variant then closes the client connection, while the handler variants return
control to the framework without closing. -/
theorem C3_non_connect_405_no_dial (r : HttpRequest)
    (hijackErr dialErr dialErr2 : Option String) (sc : Scanner)
    (rl : RequestLine) (rest : Scanner)
    (hm : r.method ≠ "CONNECT")
    (hparse : readRequestLine sc = Outcome.ok (some rl, none, rest))
    (hm2 : rl.method ≠ "CONNECT") :
    ProxyConnectHandler r hijackErr dialErr = [Event.httpError 405 (statusText 405)]
    ∧ HttpProxyConnectHandler r hijackErr dialErr = [Event.httpError 405 (statusText 405)]
    ∧ ProxyConnectHandle sc dialErr2 =
        Outcome.ok [writeStatusLineProto rl.proto 405, Event.connClose ConnId.client]
    ∧ countDials (ProxyConnectHandler r hijackErr dialErr) = 0
    ∧ countDials (HttpProxyConnectHandler r hijackErr dialErr) = 0
    ∧ countDials [writeStatusLineProto rl.proto 405, Event.connClose ConnId.client] = 0
    ∧ startsRelay (ProxyConnectHandler r hijackErr dialErr) = false
    ∧ startsRelay (HttpProxyConnectHandler r hijackErr dialErr) = false
    ∧ startsRelay [writeStatusLineProto rl.proto 405, Event.connClose ConnId.client]
        = false := by
  have h1 : ProxyConnectHandler r hijackErr dialErr
      = [Event.httpError 405 (statusText 405)] := by
    unfold ProxyConnectHandler
    rw [if_pos hm]
  have h2 : HttpProxyConnectHandler r hijackErr dialErr
      = [Event.httpError 405 (statusText 405)] := by
    unfold HttpProxyConnectHandler
    rw [if_pos hm]
  have h3 : ProxyConnectHandle sc dialErr2 =
      Outcome.ok [writeStatusLineProto rl.proto 405, Event.connClose ConnId.client] := by
    unfold ProxyConnectHandle
    rw [hparse]
    simp [hm2]
  refine ⟨h1, h2, h3, ?_, ?_, ?_, ?_, ?_, ?_⟩ <;>
    simp [h1, h2, countDials, startsRelay, writeStatusLineProto]

/-- Witness for C3 (amended) at a concrete GET request and a concrete
`"GET / HTTP/1.1"` first line. -/
theorem C3_non_connect_405_no_dial_witness :
    ("GET" : String) ≠ "CONNECT"
    ∧ readRequestLine ⟨["GET / HTTP/1.1"], none⟩ =
        Outcome.ok (some ⟨"GET", "/", "HTTP/1.1"⟩, none, ⟨[], none⟩)
    ∧ ProxyConnectHandler ⟨"GET", "example.com:80", 1, 1, "HTTP/1.1", "10.0.0.4:1"⟩
        none none = [Event.httpError 405 (statusText 405)]
    ∧ ProxyConnectHandle ⟨["GET / HTTP/1.1"], none⟩ none =
        Outcome.ok [writeStatusLineProto "HTTP/1.1" 405, Event.connClose ConnId.client] := by
  have h := C3_non_connect_405_no_dial
    ⟨"GET", "example.com:80", 1, 1, "HTTP/1.1", "10.0.0.4:1"⟩ none none none
    ⟨["GET / HTTP/1.1"], none⟩ ⟨"GET", "/", "HTTP/1.1"⟩ ⟨[], none⟩
    (by decide) (by decide) (by decide)
  exact ⟨by decide, by decide, h.1, h.2.2.1⟩

/-- C4: on a CONNECT request whose dial fails, the handler-based variant
writes the synthetic 503 status line and the raw-socket variant the 500 one;
the client connection is then closed, the dial is attempted exactly once, and
no relay copy goroutine is ever started (no tunnel session). -/
theorem C4_dial_failure_behaviour (r : HttpRequest) (e1 : String) (sc : Scanner)
    (rl : RequestLine) (rest : Scanner) (e2 : String)
    (hm : r.method = "CONNECT")
    (hparse : readRequestLine sc = Outcome.ok (some rl, none, rest))
    (hm2 : rl.method = "CONNECT") :
    ProxyConnectHandler r none (some e1) =
      [Event.hijack, Event.dial "tcp" r.host,
       writeStatusLineFmt r.protoMajor r.protoMinor 503,
       Event.connClose ConnId.client]
    ∧ ProxyConnectHandle sc (some e2) =
        Outcome.ok [Event.dial "tcp" rl.authority,
          writeStatusLineProto rl.proto 500, Event.connClose ConnId.client]
    ∧ countDials (ProxyConnectHandler r none (some e1)) = 1
    ∧ startsRelay (ProxyConnectHandler r none (some e1)) = false
    ∧ countDials [Event.dial "tcp" rl.authority,
        writeStatusLineProto rl.proto 500, Event.connClose ConnId.client] = 1
    ∧ startsRelay [Event.dial "tcp" rl.authority,
        writeStatusLineProto rl.proto 500, Event.connClose ConnId.client] = false := by
  have h1 : ProxyConnectHandler r none (some e1) =
      [Event.hijack, Event.dial "tcp" r.host,
       writeStatusLineFmt r.protoMajor r.protoMinor 503,
       Event.connClose ConnId.client] := by
    unfold ProxyConnectHandler
    simp [hm]
  have h2 : ProxyConnectHandle sc (some e2) =
      Outcome.ok [Event.dial "tcp" rl.authority,
        writeStatusLineProto rl.proto 500, Event.connClose ConnId.client] := by
    unfold ProxyConnectHandle
    rw [hparse]
    simp [hm2]
  refine ⟨h1, h2, ?_, ?_, ?_, ?_⟩ <;>
    simp [h1, countDials, startsRelay, writeStatusLineFmt, writeStatusLineProto]

/-- Witness for C4 at a concrete CONNECT request to an unreachable authority. -/
theorem C4_dial_failure_behaviour_witness :
    readRequestLine ⟨["CONNECT 198.51.100.7:1 HTTP/1.1"], none⟩ =
        Outcome.ok (some ⟨"CONNECT", "198.51.100.7:1", "HTTP/1.1"⟩, none, ⟨[], none⟩)
    ∧ ProxyConnectHandler ⟨"CONNECT", "198.51.100.7:1", 1, 1, "HTTP/1.1", "10.0.0.5:2"⟩
        none (some "connection refused") =
        [Event.hijack, Event.dial "tcp" "198.51.100.7:1",
         writeStatusLineFmt 1 1 503, Event.connClose ConnId.client]
    ∧ ProxyConnectHandle ⟨["CONNECT 198.51.100.7:1 HTTP/1.1"], none⟩
        (some "connection refused") =
        Outcome.ok [Event.dial "tcp" "198.51.100.7:1",
          writeStatusLineProto "HTTP/1.1" 500, Event.connClose ConnId.client] := by
  have h := C4_dial_failure_behaviour
    ⟨"CONNECT", "198.51.100.7:1", 1, 1, "HTTP/1.1", "10.0.0.5:2"⟩ "connection refused"
    ⟨["CONNECT 198.51.100.7:1 HTTP/1.1"], none⟩
    ⟨"CONNECT", "198.51.100.7:1", "HTTP/1.1"⟩ ⟨[], none⟩ "connection refused"
    rfl (by decide) rfl
  exact ⟨by decide, h.1, h.2.1⟩

/-- C2 counterexample: on a concrete CONNECT request with a successful dial,
the one status line written is `"HTTP/1.1 200 OK\r\n\r\n"` — the reason
phrase is `http.StatusText(200) = "OK"`, not `"Connection Established"`. -/
theorem C2_reason_phrase_is_OK :
    statusLinesWritten (HttpProxyConnectHandler
        ⟨"CONNECT", "example.com:443", 1, 1, "HTTP/1.1", "10.0.0.3:4"⟩ none none) =
      ["HTTP/1.1 200 OK\r\n\r\n"]
    ∧ ("HTTP/1.1 200 OK\r\n\r\n" = "HTTP/1.1 200 Connection Established\r\n\r\n"
        → False) :=
  ⟨by decide, by decide⟩

/-- C2 (amended): for every CONNECT request whose dial succeeds, each variant
writes exactly one status line to the client, of the form
`"<proto> 200 OK\r\n\r\n"` (protocol-version-matched, reason phrase
`http.StatusText(200) = "OK"`), and it is fully written before any relay
copy goroutine is started (before any tunneled byte can be forwarded). -/
theorem C2_success_single_status_line (r : HttpRequest)
    (sc : Scanner) (rl : RequestLine) (rest : Scanner)
    (hm : r.method = "CONNECT")
    (hparse : readRequestLine sc = Outcome.ok (some rl, none, rest))
    (hm2 : rl.method = "CONNECT") :
    statusLinesWritten (ProxyConnectHandler r none none) =
        [statusLineFmtBytes r.protoMajor r.protoMinor 200]
    ∧ statusLinesWritten (beforeRelay (ProxyConnectHandler r none none)) =
        [statusLineFmtBytes r.protoMajor r.protoMinor 200]
    ∧ statusLinesWritten (HttpProxyConnectHandler r none none) =
        [statusLineProtoBytes r.proto 200]
    ∧ statusLinesWritten (beforeRelay (HttpProxyConnectHandler r none none)) =
        [statusLineProtoBytes r.proto 200]
    ∧ (∃ tr, ProxyConnectHandle sc none = Outcome.ok tr
        ∧ statusLinesWritten tr = [statusLineProtoBytes rl.proto 200]
        ∧ statusLinesWritten (beforeRelay tr) = [statusLineProtoBytes rl.proto 200])
    ∧ statusLineProtoBytes rl.proto 200 = rl.proto ++ " 200 OK\r\n\r\n"
    ∧ statusLineFmtBytes r.protoMajor r.protoMinor 200 =
        "HTTP/" ++ toString r.protoMajor ++ "." ++ toString r.protoMinor
          ++ " 200 OK\r\n\r\n" := by
  have h200 : toString (200 : Nat) = "200" := rfl
  have hOK : statusText 200 = "OK" := rfl
  have h1 : ProxyConnectHandler r none none =
      [Event.hijack, Event.dial "tcp" r.host,
       writeStatusLineFmt r.protoMajor r.protoMinor 200,
       Event.goCopy ConnId.target ConnId.client,
       Event.goCopy ConnId.client ConnId.target,
       Event.waitReturn, Event.connClose ConnId.target,
       Event.connClose ConnId.client] := by
    unfold ProxyConnectHandler
    simp [hm]
  have h2 : HttpProxyConnectHandler r none none =
      [Event.hijack, Event.dial "tcp" r.host,
       writeStatusLineProto r.proto 200,
       Event.goCopy ConnId.target ConnId.client,
       Event.goCopy ConnId.client ConnId.target,
       Event.waitReturn, Event.connClose ConnId.target,
       Event.connClose ConnId.client] := by
    unfold HttpProxyConnectHandler
    simp [hm]
  have h3 : ProxyConnectHandle sc none =
      Outcome.ok [Event.dial "tcp" rl.authority,
        writeStatusLineProto rl.proto 200,
        Event.goCopy ConnId.target ConnId.client,
        Event.goCopy ConnId.client ConnId.target,
        Event.waitReturn, Event.connClose ConnId.target] := by
    unfold ProxyConnectHandle
    rw [hparse]
    simp [hm2]
  refine ⟨?_, ?_, ?_, ?_, ⟨_, h3, ?_, ?_⟩, ?_, ?_⟩
  · rw [h1]; rfl
  · rw [h1]; rfl
  · rw [h2]; rfl
  · rw [h2]; rfl
  · rfl
  · rfl
  · have hlit : (" " ++ ("200" ++ (" " ++ ("OK" ++ "\r\n\r\n")))) = " 200 OK\r\n\r\n" := by
      decide
    rw [statusLineProtoBytes, h200, hOK]
    simp only [String.append_assoc]
    rw [hlit]
  · have hlit : (" " ++ ("200" ++ (" " ++ ("OK" ++ "\r\n\r\n")))) = " 200 OK\r\n\r\n" := by
      decide
    rw [statusLineFmtBytes, h200, hOK]
    simp only [String.append_assoc]
    rw [hlit]

/-- Witness for C2 (amended) at a concrete CONNECT request and request line. -/
theorem C2_success_single_status_line_witness :
    readRequestLine ⟨["CONNECT example.com:443 HTTP/1.1"], none⟩ =
        Outcome.ok (some ⟨"CONNECT", "example.com:443", "HTTP/1.1"⟩, none, ⟨[], none⟩)
    ∧ statusLinesWritten (ProxyConnectHandler
        ⟨"CONNECT", "example.com:443", 1, 1, "HTTP/1.1", "10.0.0.6:3"⟩ none none) =
        [statusLineFmtBytes 1 1 200]
    ∧ statusLineFmtBytes 1 1 200 = "HTTP/1.1 200 OK\r\n\r\n" := by
  have h := C2_success_single_status_line
    ⟨"CONNECT", "example.com:443", 1, 1, "HTTP/1.1", "10.0.0.6:3"⟩
    ⟨["CONNECT example.com:443 HTTP/1.1"], none⟩
    ⟨"CONNECT", "example.com:443", "HTTP/1.1"⟩ ⟨[], none⟩
    rfl (by decide) rfl
  exact ⟨by decide, h.1, by decide⟩

/-- C9 counterexample: on dial failure the hijack-handler variant
`HttpProxyConnectHandler` writes a 503 Service Unavailable status line, not
the claimed 500. -/
theorem C9_hijack_variant_writes_503 :
    statusLinesWritten (HttpProxyConnectHandler
        ⟨"CONNECT", "203.0.113.9:81", 1, 1, "HTTP/1.1", "10.0.0.7:8"⟩
        none (some "connection refused")) =
      ["HTTP/1.1 503 Service Unavailable\r\n\r\n"]
    ∧ ("HTTP/1.1 503 Service Unavailable\r\n\r\n"
        = "HTTP/1.1 500 Internal Server Error\r\n\r\n" → False) :=
  ⟨by decide, by decide⟩

/-- C9 (amended): on dial failure, both hijack-based handler variants
(`ProxyConnectHandler` and `HttpProxyConnectHandler`) write a 503 Service
Unavailable status line; only the raw-socket variant `ProxyConnectHandle`
writes 500 Internal Server Error. -/
theorem C9_dial_failure_status_codes (r : HttpRequest) (e1 e2 e3 : String)
    (sc : Scanner) (rl : RequestLine) (rest : Scanner)
    (hm : r.method = "CONNECT")
    (hparse : readRequestLine sc = Outcome.ok (some rl, none, rest))
    (hm2 : rl.method = "CONNECT") :
    statusLinesWritten (ProxyConnectHandler r none (some e1)) =
        [statusLineFmtBytes r.protoMajor r.protoMinor 503]
    ∧ statusLinesWritten (HttpProxyConnectHandler r none (some e2)) =
        [statusLineProtoBytes r.proto 503]
    ∧ (∃ tr, ProxyConnectHandle sc (some e3) = Outcome.ok tr
        ∧ statusLinesWritten tr = [statusLineProtoBytes rl.proto 500]) := by
  have h1 : ProxyConnectHandler r none (some e1) =
      [Event.hijack, Event.dial "tcp" r.host,
       writeStatusLineFmt r.protoMajor r.protoMinor 503,
       Event.connClose ConnId.client] := by
    unfold ProxyConnectHandler
    simp [hm]
  have h2 : HttpProxyConnectHandler r none (some e2) =
      [Event.hijack, Event.dial "tcp" r.host,
       writeStatusLineProto r.proto 503,
       Event.connClose ConnId.client] := by
    unfold HttpProxyConnectHandler
    simp [hm]
  have h3 : ProxyConnectHandle sc (some e3) =
      Outcome.ok [Event.dial "tcp" rl.authority,
        writeStatusLineProto rl.proto 500, Event.connClose ConnId.client] := by
    unfold ProxyConnectHandle
    rw [hparse]
    simp [hm2]
  exact ⟨by rw [h1]; rfl, by rw [h2]; rfl, ⟨_, h3, rfl⟩⟩

/-- Witness for C9 (amended) at a concrete CONNECT request and request line. -/
theorem C9_dial_failure_status_codes_witness :
    readRequestLine ⟨["CONNECT 203.0.113.9:81 HTTP/1.1"], none⟩ =
        Outcome.ok (some ⟨"CONNECT", "203.0.113.9:81", "HTTP/1.1"⟩, none, ⟨[], none⟩)
    ∧ statusLinesWritten (ProxyConnectHandler
        ⟨"CONNECT", "203.0.113.9:81", 1, 1, "HTTP/1.1", "10.0.0.8:9"⟩
        none (some "connection refused")) = [statusLineFmtBytes 1 1 503]
    ∧ statusLineFmtBytes 1 1 503 = "HTTP/1.1 503 Service Unavailable\r\n\r\n" := by
  have h := C9_dial_failure_status_codes
    ⟨"CONNECT", "203.0.113.9:81", 1, 1, "HTTP/1.1", "10.0.0.8:9"⟩
    "connection refused" "connection refused" "connection refused"
    ⟨["CONNECT 203.0.113.9:81 HTTP/1.1"], none⟩
    ⟨"CONNECT", "203.0.113.9:81", "HTTP/1.1"⟩ ⟨[], none⟩
    rfl (by decide) rfl
  exact ⟨by decide, h.1, by decide⟩

/-- C5 counterexample: an ordinary copy error ("connection reset by peer") is
logged by the waitgroup-based `copyIO` with no address field at all (only the
error itself), and the direction closes nothing — the destination connection
stays open, so the errored direction does not trigger teardown of the other
side. -/
theorem C5_error_direction_closes_nothing :
    copyIO (CopyResult.copyErr "connection reset by peer") =
      { logged := some { level := "error",
                         fields := [("error", "connection reset by peer")],
                         msg := "" },
        dstClosed := false, wgDone := true }
    ∧ ( copyIO (CopyResult.copyErr "connection reset by peer")).dstClosed
        = false := by
  exact ⟨by decide, by decide⟩

/-- C5 (amended): errors whose message contains
`"use of closed network connection"` are never logged; any other copy error
is logged — with the destination's local address only in the
context-cancellation variant, while the waitgroup-based `copyIO` logs just
the error with no address context; the direction always completes
(`wg.Done()` runs), but teardown of the other side is triggered only by a
clean EOF completion, which closes the destination (waitgroup variant) or
cancels the context (cancellation variant); an errored direction closes and
cancels nothing. -/
theorem C5_copy_error_classification (msg addr : String) :
    (stringsContains msg "use of closed network connection" = true →
      ( copyIO (CopyResult.copyErr msg)).logged = none
      ∧ (copyIOCancel addr (CopyResult.copyErr msg)).logged = none)
    ∧ (stringsContains msg "use of closed network connection" = false →
      ( copyIO (CopyResult.copyErr msg)).logged =
          some { level := "error", fields := [("error", msg)], msg := "" }
      ∧ (copyIOCancel addr (CopyResult.copyErr msg)).logged =
          some { level := "error",
                 fields := [("local_addr", addr), ("error", msg)], msg := "" })
    ∧ ( copyIO (CopyResult.copyErr msg)).wgDone = true
    ∧ ( copyIO (CopyResult.copyErr msg)).dstClosed = false
    ∧ ( copyIO CopyResult.eof).dstClosed = true
    ∧ ( copyIO CopyResult.eof).wgDone = true
    ∧ (copyIOCancel addr CopyResult.eof).cancelCalled = true
    ∧ (copyIOCancel addr (CopyResult.copyErr msg)).cancelCalled = false := by
  refine ⟨?_, ?_, rfl, rfl, rfl, rfl, rfl, rfl⟩ <;> intro h <;>
    simp [ copyIO, copyIOCancel, h]

/-- Witness for C5 (amended): a closed-connection error is not logged; a
reset error is logged, with the local address present in the cancellation
variant. -/
theorem C5_copy_error_classification_witness :
    stringsContains "read tcp 127.0.0.1:9: use of closed network connection"
        "use of closed network connection" = true
    ∧ ( copyIO (CopyResult.copyErr
        "read tcp 127.0.0.1:9: use of closed network connection")).logged = none
    ∧ stringsContains "connection reset by peer"
        "use of closed network connection" = false
    ∧ (copyIOCancel "127.0.0.1:9"
        (CopyResult.copyErr "connection reset by peer")).logged =
        some { level := "error",
               fields := [("local_addr", "127.0.0.1:9"),
                          ("error", "connection reset by peer")],
               msg := "" } := by
  have h1 := C5_copy_error_classification
    "read tcp 127.0.0.1:9: use of closed network connection" "127.0.0.1:9"
  have h2 := C5_copy_error_classification "connection reset by peer" "127.0.0.1:9"
  exact ⟨by decide, (h1.1 (by decide)).1, by decide, (h2.2.1 (by decide)).2⟩

/-- C1 counterexample: in the raw-socket variant (which does not defer
`clientConn.Close()`), the interleaving in which both copy directions end in
an error reaches a state where the handler has returned but the client
connection is still open — the claimed invariant "both connections are
closed after the handler returns" fails for `ProxyConnectHandle`; its
success-path trace indeed contains no close of the client connection. -/
theorem C1_raw_socket_client_left_open :
    SessionReachable false
      { clientClosed := false, targetClosed := true, aDone := true, bDone := true,
        wgCount := 0, returned := true, waitRet := 1 }
    ∧ ({ clientClosed := false, targetClosed := true, aDone := true, bDone := true,
         wgCount := 0, returned := true, waitRet := 1 } : SessionState).returned = true
    ∧ ({ clientClosed := false, targetClosed := true, aDone := true, bDone := true,
         wgCount := 0, returned := true, waitRet := 1 } : SessionState).clientClosed
        = false
    ∧ ProxyConnectHandle ⟨["CONNECT example.com:443 HTTP/1.1"], none⟩ none =
        Outcome.ok [Event.dial "tcp" "example.com:443",
          writeStatusLineProto "HTTP/1.1" 200,
          Event.goCopy ConnId.target ConnId.client,
          Event.goCopy ConnId.client ConnId.target,
          Event.waitReturn, Event.connClose ConnId.target]
    ∧ closesConn [Event.dial "tcp" "example.com:443",
        writeStatusLineProto "HTTP/1.1" 200,
        Event.goCopy ConnId.target ConnId.client,
        Event.goCopy ConnId.client ConnId.target,
        Event.waitReturn, Event.connClose ConnId.target] ConnId.client = false := by
  refine ⟨?_, rfl, rfl, by decide, by decide⟩
  have h0 : SessionReachable false initSession := SessionReachable.init
  have h1 := SessionReachable.step h0 (SessionStep.aErr initSession rfl)
  have h2 := SessionReachable.step h1 (SessionStep.bErr _ rfl)
  exact SessionReachable.step h2 (SessionStep.waitReturn _ rfl rfl)

/-- C1 (amended): for the hijacking handler variants (`ProxyConnectHandler`
and `HttpProxyConnectHandler`, which defer closes of both connections —
`deferCloseClient = true`), in every reachable interleaving of the
waitgroup-based relay in which the handler has returned, both connections
are closed, both copy goroutines have completed (no goroutine leak), and
`wg.Wait()` has returned exactly once; closing is idempotent in the model
because Go's `net.Conn.Close` on a closed connection returns an error and
never panics.  The raw-socket variant `ProxyConnectHandle` defers only
`targetConn.Close()` and does not satisfy this invariant. -/
theorem C1_wg_relay_invariant (s : SessionState)
    (hreach : SessionReachable true s) (hret : s.returned = true) :
    s.clientClosed = true ∧ s.targetClosed = true ∧ s.aDone = true
      ∧ s.bDone = true ∧ s.waitRet = 1 := by
  obtain ⟨hwg, hret2, himpl⟩ := sessionInv_of_reachable hreach
  obtain ⟨ht, ha, hb, hc⟩ := himpl hret
  refine ⟨hc rfl, ht, ha, hb, ?_⟩
  simp [hret] at hret2
  exact hret2

/-- Witness for C1 (amended) at the concrete interleaving where the
client→target direction reaches EOF and the target→client direction then
errors on its closed source. -/
theorem C1_wg_relay_invariant_witness :
    SessionReachable true
      { clientClosed := true, targetClosed := true, aDone := true, bDone := true,
        wgCount := 0, returned := true, waitRet := 1 }
    ∧ ({ clientClosed := true, targetClosed := true, aDone := true, bDone := true,
         wgCount := 0, returned := true, waitRet := 1 } : SessionState).returned = true
    ∧ (({ clientClosed := true, targetClosed := true, aDone := true, bDone := true,
          wgCount := 0, returned := true, waitRet := 1 } : SessionState).clientClosed = true
        ∧ ({ clientClosed := true, targetClosed := true, aDone := true, bDone := true,
             wgCount := 0, returned := true, waitRet := 1 } : SessionState).targetClosed = true
        ∧ ({ clientClosed := true, targetClosed := true, aDone := true, bDone := true,
             wgCount := 0, returned := true, waitRet := 1 } : SessionState).aDone = true
        ∧ ({ clientClosed := true, targetClosed := true, aDone := true, bDone := true,
             wgCount := 0, returned := true, waitRet := 1 } : SessionState).bDone = true
        ∧ ({ clientClosed := true, targetClosed := true, aDone := true, bDone := true,
             wgCount := 0, returned := true, waitRet := 1 } : SessionState).waitRet = 1) := by
  have h0 : SessionReachable true initSession := SessionReachable.init
  have h1 := SessionReachable.step h0 (SessionStep.aEof initSession rfl rfl)
  have h2 := SessionReachable.step h1 (SessionStep.bErr _ rfl)
  have h3 := SessionReachable.step h2 (SessionStep.waitReturn _ rfl rfl)
  exact ⟨h3, rfl, C1_wg_relay_invariant _ h3 rfl⟩
